import Mathlib

set_option linter.unusedVariables false

/-!
Verification development for the blobserver repository.

Shallow embedding of:
 * the generic blob tracker `trackBlobs` and its helper class `BlobPair`
   (src/include/detector.h, lines 167-293),
 * the parallel masking utility `Parallel_Mask` (src/include/detector.h, lines 40-64),
 * `Detector::getOutput` (src/include/detector.h, line 139) together with the
   reference-counted `cv::Mat` copy semantics it relies on,
 * the OSC control handlers and the main loop of the server
   (src/src/blobserver.cpp).

C++ vectors are Lean lists, machine integers are `Nat`/`Int` with explicit
`% 2^32` where unsigned overflow matters, and raw pointers into a
`std::vector` are represented by the element index the address corresponds
to (base pointer + index); `std::vector::erase` shifts the elements after
the erased position down by one while the stored addresses stay fixed,
which the embedding mirrors by keeping the stored indices fixed while the
list shrinks.
-/

namespace Blobserver

/-! ## The blob tracker (src/include/detector.h) -/

/-- One candidate `(track, measurement)` pair, as built by the `BlobPair<T>`
constructor: it stores a pointer to the tracked blob (`_current`, modelled by
the index of the blob in `pBlobs` at construction time, which is the offset of
its address from the vector base), a pointer to the measurement (`_measure`,
modelled by its index in `pProperties`), and the distance
`_current->getDistanceFromPrediction(*_measure)` computed at construction. -/
structure BlobPair where
  current : Nat
  measure : Nat
  dist : Int
deriving DecidableEq, Repr

/-- `trackBlobs` is a template over the tracked-blob class `T`; the methods it
requires from `T` (and the measurement type) are collected in this record.
The concrete classes implementing them (blob_2D and friends) are not part of
the three source files, so the tracker is embedded generically, exactly as the
C++ template is. `init` receives the default-constructed blob (`T newBlob;`)
and the measurement. -/
structure TrackOps (T P : Type) where
  predict : T → T
  getDistanceFromPrediction : T → P → Int
  setNewMeasures : T → P → T
  renewLifetime : T → T
  getOlder : T → T
  getLifetime : T → Int
  init : T → P → T
  setLifetime : T → Int → T

/-- Candidate enumeration (detector.h lines 213-220): for every measurement
`i` and every tracked blob `j`, a `BlobPair` is pushed. The outer loop runs
over `pProperties`, the inner one over `pBlobs`. -/
def mkSearchPairs {T P : Type} [Inhabited T] [Inhabited P]
    (ops : TrackOps T P) (pProperties : List P) (pBlobs : List T) : List BlobPair :=
  (List.range pProperties.length).flatMap (fun i =>
    (List.range pBlobs.length).map (fun j =>
      ⟨j, i, ops.getDistanceFromPrediction (pBlobs.getD j default) (pProperties.getD i default)⟩))

/-- The pair extracted by `make_heap` / `pop_heap` (detector.h lines 225-229).
`BlobPair::operator<` is inverted (`a < b` iff `a.dist > b.dist`), so the
max-heap root is a pair of minimal distance.  Ties are broken by an
implementation-defined but deterministic rule; the model takes the first pair
of minimal distance in vector order. -/
def selectNearest (p : BlobPair) (l : List BlobPair) : BlobPair :=
  l.foldl (fun a b => if b.dist < a.dist then b else a) p

/-- The discard pass (detector.h lines 234-242): every remaining pair sharing
the chosen track (`getCurrent`) or the chosen measurement (`getMeasure`) is
erased.  Applied to the full candidate list this also removes the chosen pair
itself, which the C++ code pops off separately beforehand. -/
def discardShared (nearest : BlobPair) (l : List BlobPair) : List BlobPair :=
  l.filter (fun q => decide (q.current ≠ nearest.current ∧ q.measure ≠ nearest.measure))

/-- The matching loop (detector.h lines 223-243), with explicit fuel to make
the function structurally recursive: each iteration removes at least the
selected pair from the candidate list, so `fuel = l.length` (as supplied by
`greedyPairs`) always suffices and the fuel-exhaustion branch is unreachable. -/
def greedyLoop : Nat → List BlobPair → List BlobPair
  | 0, _ => []
  | _ + 1, [] => []
  | fuel + 1, p :: rest =>
    let nearest := selectNearest p rest
    nearest :: greedyLoop fuel (discardShared nearest (p :: rest))

/-- The committed assignments `lPairs` produced from a candidate list. -/
def greedyPairs (l : List BlobPair) : List BlobPair := greedyLoop l.length l

/-- Update pass (detector.h lines 247-251): for every committed pair, the
pointed-to blob gets `setNewMeasures` with the paired measurement and then
`renewLifetime`.  No elements have been erased yet, so the stored address
still designates slot `pr.current`. -/
def updateMatched {T P : Type} [Inhabited T] [Inhabited P]
    (ops : TrackOps T P) (pProperties : List P) (lPairs : List BlobPair)
    (pBlobs : List T) : List T :=
  lPairs.foldl (fun bs pr =>
    bs.set pr.current
      (ops.renewLifetime (ops.setNewMeasures (bs.getD pr.current default)
        (pProperties.getD pr.measure default)))) pBlobs

/-- Deletion pass (detector.h lines 253-274).  The loop index `i` is compared
against the addresses stored in `lPairs` (`lPairs[j].getCurrent() == &pBlobs[i]`,
i.e. stored offset = current offset).  An unmatched blob is aged with
`getOlder`; if its lifetime became negative it is erased — which shifts every
later element down by one while the stored pair addresses stay fixed — and the
loop continues at the same index.  Fuel: every step decreases
`blobs.length - i`, so the initial `blobs.length` suffices. -/
def deleteLoop {T P : Type} [Inhabited T] (ops : TrackOps T P) (pairAddrs : List Nat) :
    Nat → List T → Nat → List T
  | 0, blobs, _ => blobs
  | fuel + 1, blobs, i =>
    if i < blobs.length then
      if pairAddrs.contains i then
        deleteLoop ops pairAddrs fuel blobs (i + 1)
      else
        let b := ops.getOlder (blobs.getD i default)
        if ops.getLifetime b < 0 then
          deleteLoop ops pairAddrs fuel (blobs.eraseIdx i) i
        else
          deleteLoop ops pairAddrs fuel (blobs.set i b) (i + 1)
    else blobs

/-- Birth pass (detector.h lines 276-292): for every measurement whose address
is not the `getMeasure` of any committed pair, a new blob is default
constructed, `init`-ed with the measurement, given `setLifetime(pLifetime)`,
and appended at the end. -/
def birthPhase {T P : Type} [Inhabited T] [Inhabited P]
    (ops : TrackOps T P) (lPairs : List BlobPair) (pProperties : List P)
    (pLifetime : Int) (pBlobs : List T) : List T :=
  (List.range pProperties.length).foldl (fun bs i =>
    if lPairs.any (fun pr => pr.measure == i) then bs
    else bs ++ [ops.setLifetime (ops.init default (pProperties.getD i default)) pLifetime]) pBlobs

/-- `trackBlobs` (detector.h lines 197-293): predict all tracks, build and
greedily match the candidate pairs (only when the track vector is non-empty),
update the matched tracks, age/erase the unmatched ones, and append a newborn
track per unmatched measurement. -/
def trackBlobs {T P : Type} [Inhabited T] [Inhabited P]
    (ops : TrackOps T P) (pProperties : List P) (pBlobs : List T)
    (pLifetime : Int) : List T :=
  let blobs1 := pBlobs.map ops.predict
  let lPairs := if blobs1.length ≠ 0 then greedyPairs (mkSearchPairs ops pProperties blobs1) else []
  let blobs2 := updateMatched ops pProperties lPairs blobs1
  let blobs3 := deleteLoop ops (lPairs.map BlobPair.current) blobs2.length blobs2 0
  birthPhase ops lPairs pProperties pLifetime blobs3

/-! ### A concrete tracked-blob instantiation

A minimal tracked-blob type used to evaluate `trackBlobs` on concrete inputs:
measurements are 1-D integer positions, the distance is the squared position
difference (the spec's Euclidean-squared metric in one dimension), and the
lifetime behaves as §4.1 of the spec describes (`renewLifetime` resets to the
configured default 30, `getOlder` decrements by one). -/

structure TB where
  id : Nat
  lifetime : Int
deriving DecidableEq, Repr

instance : Inhabited TB := ⟨⟨0, 0⟩⟩

def toyOps : TrackOps TB Int where
  predict := fun b => b
  getDistanceFromPrediction := fun b m => ((b.id : Int) - m) * ((b.id : Int) - m)
  setNewMeasures := fun b _ => b
  renewLifetime := fun b => ⟨b.id, 30⟩
  getOlder := fun b => ⟨b.id, b.lifetime - 1⟩
  getLifetime := fun b => b.lifetime
  init := fun _ m => ⟨m.toNat, 0⟩
  setLifetime := fun b n => ⟨b.id, n⟩

/-! ## OSC messages (atom::Message) -/

/-- An OSC message value.  `atom::toInt` succeeds exactly on integer values
and `atom::toString` exactly on string values; on anything else they throw
`BadTypeTagError`.  Every other value kind is collapsed into `aother`.
`aother` is also used as the junk result of reading past the end of a
message, which in the C++ is undefined behaviour (`std::vector::operator[]`
without a bounds check). -/
inductive Atom where
  | aint (i : Int)
  | astr (s : String)
  | aother
deriving DecidableEq, Repr

def atomToInt : Atom → Option Int
  | .aint i => some i
  | _ => none

def atomToString : Atom → Option String
  | .astr s => some s
  | _ => none

/-! ## Flow ids (src/src/blobserver.cpp) -/

/-- `mCurrentId` is an `unsigned int`; its arithmetic is modulo `2^32`. -/
def UINT_MOD : Nat := 4294967296

/-- `App::getValidId` (blobserver.cpp line 126): `return ++mCurrentId;` — the
pre-increment stores and returns the incremented counter.  The result is the
pair (new counter value, returned id). -/
def getValidId (mCurrentId : Nat) : Nat × Nat :=
  ((mCurrentId + 1) % UINT_MOD, (mCurrentId + 1) % UINT_MOD)

/-- The counter value after `n` successful connects, starting from the
process-initial `mCurrentId = 0` (blobserver.cpp lines 143 and 148); each
successful connect calls `getValidId` exactly once (line 593). -/
def mCurrentIdAfter : Nat → Nat
  | 0 => 0
  | n + 1 => (getValidId (mCurrentIdAfter n)).1

/-- The flow id returned by the `n`-th successful connect of the process
(0-indexed). -/
def flowIdOfConnect (n : Nat) : Nat := (getValidId (mCurrentIdAfter n)).2

/-! ## Server state and the connect handler (blobserver.cpp lines 458-634) -/

/-- The endpoint URL `lo_address_get_url` of an address built from a host and
a port, abstracted as the pair rendered into a string. -/
def mkUrl (host : String) (port : Int) : String := host ++ ":" ++ toString port

/-- A `Flow` (base_objects.h, used by blobserver.cpp): flow id, detector,
the ordered sources as (class name, sub-source index) pairs, the subscriber
endpoint URL, and the `run` flag.  The shared-memory channel is determined by
the id (`/tmp/blobserver_output_<id>`), so it is not modelled separately. -/
structure Flow where
  id : Nat
  detector : String
  sources : List (String × Int)
  clientUrl : String
  run : Bool
deriving DecidableEq, Repr

/-- The parts of `App` the control handlers mutate: the global source set
(each source identified by class name and sub-source index), the flow set,
and the flow-id counter. -/
structure AppState where
  mSources : List (String × Int)
  mFlows : List Flow
  mCurrentId : Nat
deriving DecidableEq, Repr

/-- External collaborators of the connect handler: the detector factory, the
source factory, `Source::connect`, and `lo_address_errno`. -/
structure ConnectEnv where
  detectorExists : String → Bool
  detectorSourceNbr : String → Nat
  sourceExists : String → Bool
  sourceConnects : String → Int → Bool
  addrError : String → Int → Bool

/-- What the connect handler sends back (or fails to send).
`noReply`: the handler returns 1 without sending anything (caught
`BadTypeTagError` on the port argument, or `lo_address_errno != 0`).
`crash`: out-of-bounds message access or an exception that escapes the
handler (undefined behaviour in the C++). -/
inductive Reply where
  | noReply
  | crash
  | error (s : String)
  | connected (id : Nat)
deriving DecidableEq, Repr

/-- The source-allocation loop of the connect handler (blobserver.cpp lines
522-580), iterating over the message tail from index 3 in steps of two:
`iter == end` stops, `iter+1 == end` is the missing-sub-source error; a
non-string name or non-integer index is caught by the shared handler; an
existing source with the same (name, index) is reused (every match is
pushed); otherwise the factory must know the class and the fresh source must
connect. -/
def allocSources (env : ConnectEnv) (mSources : List (String × Int)) :
    List Atom → List (String × Int) → Sum String (List (String × Int))
  | [], acc => .inr acc
  | [_], _ => .inl ("Missing sub-source number")
  | a :: b :: rest, acc =>
    match atomToString a, atomToInt b with
    | some sourceName, some sourceIndex =>
      let found := mSources.filter (fun s => s.1 == sourceName && s.2 == sourceIndex)
      if found.isEmpty then
        if env.sourceExists sourceName then
          if env.sourceConnects sourceName sourceIndex then
            allocSources env mSources rest (acc ++ [(sourceName, sourceIndex)])
          else .inl ("Unable to connect to source " ++ sourceName)
        else .inl ("Unable to create source " ++ sourceName)
      else allocSources env mSources rest (acc ++ found)
    | _, _ => .inl ("Expected integer as a sub-source number")

/-- Merging the allocated sources into the global set (blobserver.cpp lines
600-619): each flow source is appended to `mSources` unless a source with the
same name and sub-source index is already there. -/
def mergeSources (mSources sources : List (String × Int)) : List (String × Int) :=
  sources.foldl (fun ms s =>
    if ms.any (fun t => t.1 == s.1 && t.2 == s.2) then ms else ms ++ [s]) mSources

/-- `App::oscHandlerConnect` (blobserver.cpp lines 458-634).  Message layout:
ip, port, detector, (source, sub-source)*.  Faithful control flow: the port is
parsed first (a caught type error returns silently); then the address is built
from `message[0]` (an uncaught type error escapes = crash; an address error
returns silently); then arity, detector name, detector factory lookup, the
source loop, and the source-count check; on success the flow id is allocated
with `getValidId`, the flow is recorded with `run = false`, the sources are
merged into the global set, and `("Connected", id)` is sent. -/
def oscHandlerConnect (env : ConnectEnv) (st : AppState) (message : List Atom) :
    AppState × Reply :=
  if message.length < 2 then (st, .crash)
  else
    match atomToInt (message.getD 1 .aother) with
    | none => (st, .noReply)
    | some portNbr =>
      match atomToString (message.getD 0 .aother) with
      | none => (st, .crash)
      | some ip =>
        if env.addrError ip portNbr then (st, .noReply)
        else if message.length < 5 then (st, .error ("Too few arguments"))
        else
          match atomToString (message.getD 2 .aother) with
          | none => (st, .error ("Expected a detector type at position 2"))
          | some detectorName =>
            if env.detectorExists detectorName then
              match allocSources env st.mSources (message.drop 3) [] with
              | .inl e => (st, .error e)
              | .inr sources =>
                if env.detectorSourceNbr detectorName ≤ sources.length then
                  (⟨mergeSources st.mSources sources,
                    st.mFlows ++ [⟨(getValidId st.mCurrentId).2, detectorName, sources,
                      mkUrl ip portNbr, false⟩],
                    (getValidId st.mCurrentId).1⟩,
                   .connected (getValidId st.mCurrentId).2)
                else (st, .error ("The specified detector needs more sources"))
            else (st, .error ("Detector type not recognized"))

/-! ## The disconnect handler (blobserver.cpp lines 637-691) -/

/-- Outcome of the disconnect handler apart from the per-flow "Disconnected"
replies: `crash` = uncaught type error on `message[0]` / `message[1]` or an
out-of-bounds read, `silent` = `lo_address_errno != 0`, `wrongArgs` = arity
error reply, `done` = the flow loop ran. -/
inductive DiscOutcome where
  | crash
  | silent
  | wrongArgs
  | done
deriving DecidableEq, Repr

/-- The per-flow removal condition of the disconnect loop (lines 669-688):
the flow's client URL equals the caller's URL (rebuilt from `message[0]` and
port 9000) and either no id was given or the given id — an `int` compared
against the `unsigned int` flow id, hence converted modulo `2^32` — matches. -/
def disconnectCond (callerUrl : String) (all : Bool) (detectorId : Int) (f : Flow) : Bool :=
  f.clientUrl == callerUrl && (all || ((detectorId % (UINT_MOD : Int)).toNat == f.id))

/-- The disconnect flow loop: erase (and reply "Disconnected" to) every flow
satisfying the condition, keep the rest in order.  The C++ erases through an
iterator it keeps using, which for a `std::vector` behaves as an index-based
erase-and-stay loop; the recursion mirrors that behaviour. -/
def discLoop (callerUrl : String) (all : Bool) (detectorId : Int) :
    List Flow → List Flow × List String
  | [] => ([], [])
  | f :: rest =>
    let (fs, sent) := discLoop callerUrl all detectorId rest
    if disconnectCond callerUrl all detectorId f then (fs, f.clientUrl :: sent)
    else (f :: fs, sent)

/-- `App::oscHandlerDisconnect` (blobserver.cpp lines 637-691).  Returns the
new state, the list of (endpoint, text) replies sent, and the outcome. -/
def oscHandlerDisconnect (addrErr : String → Bool) (st : AppState)
    (message : List Atom) : AppState × List (String × String) × DiscOutcome :=
  match atomToString (message.getD 0 .aother) with
  | none => (st, [], .crash)
  | some ip =>
    if addrErr ip then (st, [], .silent)
    else if message.length ≠ 1 ∧ message.length ≠ 2 then
      (st, [(mkUrl ip 9000, "Wrong number of arguments")], .wrongArgs)
    else if message.length = 1 then
      let (flows, sent) := discLoop (mkUrl ip 9000) true 0 st.mFlows
      (⟨st.mSources, flows, st.mCurrentId⟩,
        sent.map (fun u => (u, "Disconnected")), .done)
    else
      match atomToInt (message.getD 1 .aother) with
      | none => (st, [], .crash)
      | some detectorId =>
        let (flows, sent) := discLoop (mkUrl ip 9000) false detectorId st.mFlows
        (⟨st.mSources, flows, st.mCurrentId⟩,
          sent.map (fun u => (u, "Disconnected")), .done)

/-! ## The setParameter handler (blobserver.cpp lines 694-783) -/

/-- The per-flow effect of a setParameter message on the flow set (lines
724-780): every flow whose id matches gets `run := true` on entity "Start",
`run := false` on entity "Stop", and is otherwise left in the set unchanged
("Detector" and "Source" parameters are forwarded to the detector or source
object and do not touch the flow record itself). -/
def setParamFlows (flowId : Nat) (entity : String) (flows : List Flow) : List Flow :=
  flows.map (fun f =>
    if f.id == flowId then
      if entity == "Start" then ⟨f.id, f.detector, f.sources, f.clientUrl, true⟩
      else if entity == "Stop" then ⟨f.id, f.detector, f.sources, f.clientUrl, false⟩
      else f
    else f)

/-- `App::oscHandlerSetParameter`: parse `message[0]` as the reply address (an
uncaught type error escapes: `none`), reply-and-return on fewer than three
arguments, return silently on an address error, parse the flow id from
`message[1]` as `(unsigned int)(int)` (uncaught type error: `none`), and run
the flow loop; `message[2]` is only parsed when some flow id matches (inside
the loop body), so a bad entity argument only crashes in that case.  The
error replies of the "Detector"/"Source" arity checks do not change the
state and are not modelled here. -/
def oscHandlerSetParameter (addrErr : String → Bool) (st : AppState)
    (message : List Atom) : Option AppState :=
  match atomToString (message.getD 0 .aother) with
  | none => none
  | some ip =>
    if message.length < 3 then some st
    else if addrErr ip then some st
    else
      match atomToInt (message.getD 1 .aother) with
      | none => none
      | some i =>
        if st.mFlows.any (fun f => f.id == (i % (UINT_MOD : Int)).toNat) then
          match atomToString (message.getD 2 .aother) with
          | none => none
          | some entity =>
            some ⟨st.mSources, setParamFlows ((i % (UINT_MOD : Int)).toNat) entity st.mFlows,
              st.mCurrentId⟩
        else some st

/-- A setParameter message that starts the flow with id `fid`: its flow-id
argument converts to `fid` and its entity argument is the string "Start". -/
def isStartFor (fid : Nat) (m : List Atom) : Prop :=
  (∃ i, atomToInt (m.getD 1 Atom.aother) = some i ∧ (i % (UINT_MOD : Int)).toNat = fid)
  ∧ m.getD 2 Atom.aother = Atom.astr ("Start")

/-! ## The main loop (blobserver.cpp lines 287-399) -/

/-- Observable per-flow effects of one main-loop pass. -/
inductive Event where
  | detect (flowId : Nat)
  | shmWrite (flowId : Nat)
  | startFrame (frameNbr flowId : Nat)
  | blobMsg (flowId : Nat) (payload : List Atom)
  | endFrame (frameNbr flowId : Nat)
deriving DecidableEq, Repr

def Event.flowId : Event → Nat
  | .detect i => i
  | .shmWrite i => i
  | .startFrame _ i => i
  | .blobMsg i _ => i
  | .endFrame _ i => i

/-- Re-packing of the detector report (blobserver.cpp lines 355-366): with
`nbr = toInt(message[0])` and `size = toInt(message[1])`, the i-th of `nbr`
messages carries `message[i*size + 2 + j]` for `j < size`.  The loops are over
`int`s, so non-positive `nbr`/`size` yield no iterations (`Int.toNat` is 0 on
non-positive values). -/
def repackBlobs (message : List Atom) (nbr size : Int) : List (List Atom) :=
  (List.range nbr.toNat).map (fun i =>
    (List.range size.toNat).map (fun j =>
      message.getD (i * size.toNat + 2 + j) .aother))

/-- One flow's slice of a main-loop pass (blobserver.cpp lines 330-370): a
flow with `run == false` is skipped before anything happens; otherwise the
detector runs, its output is written to the flow's shared-memory channel, the
start-frame marker is sent, and only then are `message[0]`/`message[1]`
parsed — a non-integer value throws out of the loop (flag `false`) after
those first events; on success the re-packed blob messages and the end-frame
marker follow. -/
def flowFrameEvents (frameNbr : Nat) (f : Flow) (report : List Atom) :
    List Event × Bool :=
  if f.run = false then ([], true)
  else
    let pre := [Event.detect f.id, Event.shmWrite f.id, Event.startFrame frameNbr f.id]
    match atomToInt (report.getD 0 .aother), atomToInt (report.getD 1 .aother) with
    | some nbr, some size =>
      (pre ++ (repackBlobs report nbr size).map (Event.blobMsg f.id)
        ++ [Event.endFrame frameNbr f.id], true)
    | _, _ => (pre, false)

/-- All flows of one main-loop pass, in order; a crash inside one flow's
processing aborts the pass (and the process), keeping the events already
emitted. -/
def flowsEvents (frameNbr : Nat) (reports : Nat → List Atom) :
    List Flow → List Event × Bool
  | [] => ([], true)
  | f :: rest =>
    if (flowFrameEvents frameNbr f (reports f.id)).2 then
      ((flowFrameEvents frameNbr f (reports f.id)).1
        ++ (flowsEvents frameNbr reports rest).1,
       (flowsEvents frameNbr reports rest).2)
    else flowFrameEvents frameNbr f (reports f.id)

/-- The interleaving the server exhibits: main-loop passes (each incrementing
`frameNbr`, line 393) and control messages handled by the OSC thread. -/
inductive Action where
  | loopIter
  | setParam (message : List Atom)

/-- Run a sequence of actions.  A crash (uncaught exception) terminates the
process: no further events are produced and the state freezes. -/
def runTrace (addrErr : String → Bool) (reports : Nat → List Atom) :
    AppState → Nat → List Action → AppState × List Event
  | st, _, [] => (st, [])
  | st, frameNbr, Action.loopIter :: rest =>
    if (flowsEvents frameNbr reports st.mFlows).2 then
      ((runTrace addrErr reports st (frameNbr + 1) rest).1,
       (flowsEvents frameNbr reports st.mFlows).1
         ++ (runTrace addrErr reports st (frameNbr + 1) rest).2)
    else (st, (flowsEvents frameNbr reports st.mFlows).1)
  | st, frameNbr, Action.setParam m :: rest =>
    match oscHandlerSetParameter addrErr st m with
    | some st2 => runTrace addrErr reports st2 frameNbr rest
    | none => (st, [])

/-! ## Parallel_Mask (src/include/detector.h lines 40-64)

The buffer is a dense `rows × bCols` matrix of `PixType` elements (flat list
of elements, `w = sizeof(PixType)` bytes each); the mask is a dense matrix of
single bytes with `mCols` columns.  C++ pointer arithmetic works in units of
the pointee type, so `buffer += _buffer->cols*sizeof(PixType)` advances the
`PixType*` by `bCols * w` elements and `*(buffer + x*sizeof(PixType))`
addresses element `x * w` of the current row base — the code multiplies by
`sizeof` although pointer arithmetic already scales by it.  The mask pointer
is declared `PixType*` but initialised from the byte matrix, so
`mask + x*sizeof(uchar)` is byte offset `x * w` from the row base and
dereferencing reads `w` bytes as one `PixType`, which compares equal to 0
exactly when all `w` bytes are zero.  Reads and writes outside the data are
undefined behaviour; the model returns a junk non-zero byte for such reads
and makes such writes no-ops (`List.set` out of range). -/

/-- The `w`-byte mask read at byte offset `off` compares equal to zero. -/
def maskWindowZero (mData : List Nat) (off w : Nat) : Bool :=
  (List.range w).all (fun k => mData.getD (off + k) 1 == 0)

/-- The inner `x` loop over one row (detector.h lines 53-57). -/
def Parallel_Mask_row (w bCols : Nat) (mData : List Nat) (bufBase maskBase : Nat)
    (bData : List Int) : List Int :=
  (List.range bCols).foldl (fun bd x =>
    if maskWindowZero mData (maskBase + x * w) w then bd.set (bufBase + x * w) 0 else bd) bData

/-- The outer `y` loop (detector.h line 51): per row the buffer pointer
advances by `bCols * w` elements and the mask pointer by `mCols` `PixType`
units, i.e. `mCols * w` bytes. -/
def Parallel_Mask_go (w bCols mCols : Nat) (mData : List Nat) :
    Nat → Nat → Nat → List Int → List Int
  | 0, _, _, bData => bData
  | n + 1, bufBase, maskBase, bData =>
    Parallel_Mask_go w bCols mCols mData n (bufBase + bCols * w) (maskBase + mCols * w)
      (Parallel_Mask_row w bCols mData bufBase maskBase bData)

/-- `Parallel_Mask<PixType>::operator()` on the range `[rStart, rEnd)`:
the buffer pointer starts at element `rStart * bCols`
(`&_buffer->at<PixType>(r.start, 0)`), the mask pointer at byte
`rStart * mCols` (`&_mask->at<uchar>(r.start, 0)`). -/
def Parallel_Mask (w bCols mCols rStart rEnd : Nat) (mData : List Nat)
    (bData : List Int) : List Int :=
  Parallel_Mask_go w bCols mCols mData (rEnd - rStart) (rStart * bCols) (rStart * mCols) bData

/-! ## Detector::getOutput (src/include/detector.h line 139)

`cv::Mat` is a reference-counted handle onto a pixel store; assignment
aliases the store, `clone()` allocates a fresh store and deep-copies the
data.  The heap maps store numbers to pixel data; `next` is the next unused
store number (every live handle points below it). -/

structure MatHeap where
  stores : Nat → List Int
  next : Nat

/-- `cv::Mat::clone`: allocate a fresh store, copy the data. -/
def matClone (h : MatHeap) (b : Nat) : MatHeap × Nat :=
  (⟨fun k => if k = h.next then h.stores b else h.stores k, h.next + 1⟩, h.next)

/-- `Detector::getOutput() { return mOutputBuffer.clone(); }` -/
def getOutput (h : MatHeap) (mOutputBuffer : Nat) : MatHeap × Nat :=
  matClone h mOutputBuffer

/-- A write through a `cv::Mat` handle mutates the store it points to. -/
def matSetPixel (h : MatHeap) (b i : Nat) (v : Int) : MatHeap :=
  ⟨fun k => if k = b then (h.stores b).set i v else h.stores k, h.next⟩

/-- An arbitrary sequence of writes through one handle. -/
def writeAll (h : MatHeap) (b : Nat) (ws : List (Nat × Int)) : MatHeap :=
  ws.foldl (fun h2 w => matSetPixel h2 b w.1 w.2) h

/-! ## Concrete instances used by witnesses and counterexamples -/

/-- A small environment: one detector class needing one source, one source
class that always connects, no address errors. -/
def env0 : ConnectEnv where
  detectorExists := fun d => d == "LightSpots"
  detectorSourceNbr := fun _ => 1
  sourceExists := fun s => s == "Camera"
  sourceConnects := fun _ _ => true
  addrError := fun _ _ => false

def st0 : AppState := ⟨[], [], 0⟩

/-- A one-store heap for the C10 witness. -/
def heap0 : MatHeap := ⟨fun k => if k = 0 then [1, 2] else [], 1⟩

/-- A state with a single freshly connected (not yet started) flow. -/
def stG : AppState := ⟨[], [⟨1, "d", [], "a:9000", false⟩], 0⟩


/-! ## Lemmas about the greedy matching -/

theorem selectNearest_mem (p : BlobPair) (l : List BlobPair) :
    selectNearest p l ∈ p :: l := by
  induction l generalizing p with
  | nil => simp [selectNearest]
  | cons b l ih =>
    have h := ih (if b.dist < p.dist then b else p)
    have step : selectNearest p (b :: l) = selectNearest (if b.dist < p.dist then b else p) l := rfl
    rw [step]
    rcases List.mem_cons.mp h with h1 | h1
    · rw [h1]
      by_cases hb : b.dist < p.dist <;> simp [hb]
    · simp [h1]

theorem selectNearest_le (p : BlobPair) (l : List BlobPair) :
    ∀ q ∈ p :: l, (selectNearest p l).dist ≤ q.dist := by
  induction l generalizing p with
  | nil =>
    intro q hq
    rcases List.mem_cons.mp hq with h | h
    · subst h; exact le_refl _
    · simp at h
  | cons b l ih =>
    intro q hq
    have step : selectNearest p (b :: l) = selectNearest (if b.dist < p.dist then b else p) l := rfl
    rw [step]
    have hself : (selectNearest (if b.dist < p.dist then b else p) l).dist
        ≤ (if b.dist < p.dist then b else p).dist :=
      ih _ _ (List.mem_cons_self _ _)
    rcases List.mem_cons.mp hq with h | h
    · subst h
      refine le_trans hself ?hp
      by_cases hb : b.dist < q.dist <;> simp [hb]
      exact le_of_lt hb
    · rcases List.mem_cons.mp h with h2 | h2
      · subst h2
        refine le_trans hself ?hb2
        by_cases hb : q.dist < p.dist
        · simp [hb]
        · simp only [hb, if_false]
          exact le_of_not_lt hb
      · exact ih _ q (List.mem_cons_of_mem _ h2)

theorem mem_discardShared (nearest q : BlobPair) (l : List BlobPair) :
    q ∈ discardShared nearest l ↔
      q ∈ l ∧ q.current ≠ nearest.current ∧ q.measure ≠ nearest.measure := by
  simp [discardShared, List.mem_filter]

theorem length_filter_lt_of_mem_not {α : Type} (p : α → Bool) (l : List α) (a : α)
    (ha : a ∈ l) (hpa : p a = false) : (l.filter p).length < l.length := by
  induction l with
  | nil => cases ha
  | cons b l ih =>
    rcases List.mem_cons.mp ha with h | h
    · subst h
      simp [List.filter_cons, hpa]
      exact Nat.lt_succ_of_le (List.length_filter_le _ _)
    · by_cases hb : p b
      · simp [List.filter_cons, hb]
        exact ih h
      · simp [List.filter_cons, hb]
        exact Nat.lt_succ_of_lt (ih h)

theorem discardShared_length_lt (p : BlobPair) (rest : List BlobPair) :
    (discardShared (selectNearest p rest) (p :: rest)).length < (p :: rest).length := by
  apply length_filter_lt_of_mem_not _ _ (selectNearest p rest) (selectNearest_mem p rest)
  simp

theorem greedyLoop_subset : ∀ (fuel : Nat) (l : List BlobPair), ∀ q ∈ greedyLoop fuel l, q ∈ l := by
  intro fuel
  induction fuel with
  | zero => intro l q hq; simp [greedyLoop] at hq
  | succ n ih =>
    intro l q hq
    match l with
    | [] => simp [greedyLoop] at hq
    | p :: rest =>
      rcases List.mem_cons.mp hq with h | h
      · rw [h]; exact selectNearest_mem p rest
      · exact ((mem_discardShared _ _ _).mp (ih _ q h)).1

theorem greedyLoop_sorted : ∀ (fuel : Nat) (l : List BlobPair),
    ((greedyLoop fuel l).map BlobPair.dist).Pairwise (· ≤ ·) := by
  intro fuel
  induction fuel with
  | zero => intro l; simp [greedyLoop]
  | succ n ih =>
    intro l
    match l with
    | [] => simp [greedyLoop]
    | p :: rest =>
      show (((selectNearest p rest) ::
        greedyLoop n (discardShared (selectNearest p rest) (p :: rest))).map BlobPair.dist).Pairwise _
      rw [List.map_cons, List.pairwise_cons]
      refine ⟨?hd, ih _⟩
      intro d hd
      rcases List.mem_map.mp hd with ⟨q, hq, rfl⟩
      have hq2 := ((mem_discardShared _ _ _).mp (greedyLoop_subset n _ q hq)).1
      exact selectNearest_le p rest q hq2

theorem greedyLoop_nodup_current : ∀ (fuel : Nat) (l : List BlobPair),
    ((greedyLoop fuel l).map BlobPair.current).Nodup := by
  intro fuel
  induction fuel with
  | zero => intro l; simp [greedyLoop]
  | succ n ih =>
    intro l
    match l with
    | [] => simp [greedyLoop]
    | p :: rest =>
      show (((selectNearest p rest) ::
        greedyLoop n (discardShared (selectNearest p rest) (p :: rest))).map BlobPair.current).Nodup
      rw [List.map_cons, List.nodup_cons]
      refine ⟨?hd, ih _⟩
      intro hmem
      rcases List.mem_map.mp hmem with ⟨q, hq, hcur⟩
      exact ((mem_discardShared _ _ _).mp (greedyLoop_subset n _ q hq)).2.1 hcur

theorem greedyLoop_nodup_measure : ∀ (fuel : Nat) (l : List BlobPair),
    ((greedyLoop fuel l).map BlobPair.measure).Nodup := by
  intro fuel
  induction fuel with
  | zero => intro l; simp [greedyLoop]
  | succ n ih =>
    intro l
    match l with
    | [] => simp [greedyLoop]
    | p :: rest =>
      show (((selectNearest p rest) ::
        greedyLoop n (discardShared (selectNearest p rest) (p :: rest))).map BlobPair.measure).Nodup
      rw [List.map_cons, List.nodup_cons]
      refine ⟨?hd, ih _⟩
      intro hmem
      rcases List.mem_map.mp hmem with ⟨q, hq, hcur⟩
      exact ((mem_discardShared _ _ _).mp (greedyLoop_subset n _ q hq)).2.2 hcur

theorem greedyLoop_cover : ∀ (fuel : Nat) (l : List BlobPair), l.length ≤ fuel →
    ∀ q ∈ l, ∃ c ∈ greedyLoop fuel l, c.current = q.current ∨ c.measure = q.measure := by
  intro fuel
  induction fuel with
  | zero =>
    intro l hl q hq
    rw [Nat.le_zero, List.length_eq_zero] at hl
    subst hl; cases hq
  | succ n ih =>
    intro l hl q hq
    match l with
    | [] => cases hq
    | p :: rest =>
      by_cases hshare : q.current = (selectNearest p rest).current
          ∨ q.measure = (selectNearest p rest).measure
      · refine ⟨selectNearest p rest, List.mem_cons_self _ _, ?hsym⟩
        rcases hshare with h | h
        · exact Or.inl h.symm
        · exact Or.inr h.symm
      · push_neg at hshare
        have hmem : q ∈ discardShared (selectNearest p rest) (p :: rest) :=
          (mem_discardShared _ _ _).mpr ⟨hq, hshare.1, hshare.2⟩
        have hlen : (discardShared (selectNearest p rest) (p :: rest)).length ≤ n :=
          Nat.lt_succ_iff.mp (Nat.lt_of_lt_of_le (discardShared_length_lt p rest) hl)
        rcases ih _ hlen q hmem with ⟨c, hc, hcq⟩
        exact ⟨c, List.mem_cons_of_mem _ hc, hcq⟩

theorem greedyLoop_fuel : ∀ (f1 f2 : Nat) (l : List BlobPair),
    l.length ≤ f1 → l.length ≤ f2 → greedyLoop f1 l = greedyLoop f2 l := by
  intro f1
  induction f1 with
  | zero =>
    intro f2 l h1 _
    rw [Nat.le_zero, List.length_eq_zero] at h1
    subst h1
    cases f2 <;> simp [greedyLoop]
  | succ n ih =>
    intro f2 l h1 h2
    match l with
    | [] => cases f2 <;> simp [greedyLoop]
    | p :: rest =>
      match f2 with
      | 0 => simp at h2
      | m + 1 =>
        show selectNearest p rest :: greedyLoop n (discardShared (selectNearest p rest) (p :: rest))
          = selectNearest p rest :: greedyLoop m (discardShared (selectNearest p rest) (p :: rest))
        have hlt := discardShared_length_lt p rest
        rw [ih m _ (Nat.lt_succ_iff.mp (Nat.lt_of_lt_of_le hlt h1))
          (Nat.lt_succ_iff.mp (Nat.lt_of_lt_of_le hlt h2))]

theorem greedyPairs_cons (p : BlobPair) (rest : List BlobPair) :
    greedyPairs (p :: rest) =
      selectNearest p rest :: greedyPairs (discardShared (selectNearest p rest) (p :: rest)) := by
  show selectNearest p rest :: greedyLoop rest.length (discardShared (selectNearest p rest) (p :: rest))
    = selectNearest p rest :: greedyLoop (discardShared (selectNearest p rest) (p :: rest)).length
        (discardShared (selectNearest p rest) (p :: rest))
  rw [greedyLoop_fuel rest.length _ _
    (Nat.lt_succ_iff.mp (discardShared_length_lt p rest)) (le_refl _)]

theorem mem_mkSearchPairs {T P : Type} [Inhabited T] [Inhabited P]
    (ops : TrackOps T P) (props : List P) (blobs : List T) (q : BlobPair) :
    q ∈ mkSearchPairs ops props blobs ↔
      q.current < blobs.length ∧ q.measure < props.length ∧
      q.dist = ops.getDistanceFromPrediction (blobs.getD q.current default)
        (props.getD q.measure default) := by
  cases q with
  | mk c m d =>
    simp only [mkSearchPairs, List.mem_flatMap, List.mem_map, List.mem_range]
    constructor
    · rintro ⟨i, hi, j, hj, heq⟩
      cases heq
      exact ⟨hj, hi, rfl⟩
    · rintro ⟨hc, hm, hd⟩
      exact ⟨m, hm, c, hc, by rw [hd]⟩

theorem greedyPairs_grid_length {T P : Type} [Inhabited T] [Inhabited P]
    (ops : TrackOps T P) (props : List P) (blobs : List T) :
    (greedyPairs (mkSearchPairs ops props blobs)).length
      = min props.length blobs.length := by
  set grid := mkSearchPairs ops props blobs with hgrid
  set g := greedyPairs grid with hg
  have hsub : ∀ q ∈ g, q ∈ grid := greedyLoop_subset _ _
  have hndc : (g.map BlobPair.current).Nodup := greedyLoop_nodup_current _ _
  have hndm : (g.map BlobPair.measure).Nodup := greedyLoop_nodup_measure _ _
  have hcurlt : ∀ x ∈ g.map BlobPair.current, x < blobs.length := by
    intro x hx
    rcases List.mem_map.mp hx with ⟨q, hq, rfl⟩
    exact ((mem_mkSearchPairs ops props blobs q).mp (hsub q hq)).1
  have hmeaslt : ∀ x ∈ g.map BlobPair.measure, x < props.length := by
    intro x hx
    rcases List.mem_map.mp hx with ⟨q, hq, rfl⟩
    exact ((mem_mkSearchPairs ops props blobs q).mp (hsub q hq)).2.1
  have hsubc : (g.map BlobPair.current).toFinset ⊆ Finset.range blobs.length := by
    intro x hx
    exact Finset.mem_range.mpr (hcurlt x (List.mem_toFinset.mp hx))
  have hsubm : (g.map BlobPair.measure).toFinset ⊆ Finset.range props.length := by
    intro x hx
    exact Finset.mem_range.mpr (hmeaslt x (List.mem_toFinset.mp hx))
  have hlenc : g.length ≤ blobs.length := by
    have := Finset.card_le_card hsubc
    rwa [List.toFinset_card_of_nodup hndc, Finset.card_range, List.length_map] at this
  have hlenm : g.length ≤ props.length := by
    have := Finset.card_le_card hsubm
    rwa [List.toFinset_card_of_nodup hndm, Finset.card_range, List.length_map] at this
  refine le_antisymm (le_min hlenm hlenc) ?hge
  by_contra hlt
  push_neg at hlt
  have hltm : g.length < props.length := lt_of_lt_of_le hlt (min_le_left _ _)
  have hltc : g.length < blobs.length := lt_of_lt_of_le hlt (min_le_right _ _)
  have hxc : ∃ j ∈ Finset.range blobs.length, j ∉ (g.map BlobPair.current).toFinset := by
    rw [← Finset.not_subset]
    intro hcon
    have := Finset.card_le_card hcon
    rw [List.toFinset_card_of_nodup hndc, Finset.card_range, List.length_map] at this
    exact absurd this (not_le_of_lt hltc)
  have hxm : ∃ i ∈ Finset.range props.length, i ∉ (g.map BlobPair.measure).toFinset := by
    rw [← Finset.not_subset]
    intro hcon
    have := Finset.card_le_card hcon
    rw [List.toFinset_card_of_nodup hndm, Finset.card_range, List.length_map] at this
    exact absurd this (not_le_of_lt hltm)
  rcases hxc with ⟨j, hj, hjni⟩
  rcases hxm with ⟨i, hi, hini⟩
  have hq0 : (⟨j, i, ops.getDistanceFromPrediction (blobs.getD j default)
      (props.getD i default)⟩ : BlobPair) ∈ grid := by
    rw [hgrid, mem_mkSearchPairs]
    exact ⟨Finset.mem_range.mp hj, Finset.mem_range.mp hi, rfl⟩
  rcases greedyLoop_cover grid.length grid (le_refl _) _ hq0 with ⟨c, hc, hshare⟩
  rcases hshare with h | h
  · exact hjni (List.mem_toFinset.mpr (List.mem_map.mpr ⟨c, hc, h⟩))
  · exact hini (List.mem_toFinset.mpr (List.mem_map.mpr ⟨c, hc, h⟩))

/-! ## Claim theorems for the blob tracker -/

/-- Claim C2: for every call to `trackBlobs` with a non-empty track vector, the
matching over the candidate pairs (one per measurement/track combination,
tagged with `getDistanceFromPrediction`) commits pairs in non-decreasing
distance order, each committed step takes a pair of minimal distance among
the remaining candidates and discards every remaining pair sharing its track
or its measurement, the committed tracks and measurements are pairwise
distinct, every candidate pair shares its track or measurement with some
commitment (the loop runs until no candidates remain), and the assignment
set has size `min M T`. -/
theorem trackBlobs_greedy_matching {T P : Type} [Inhabited T] [Inhabited P]
    (ops : TrackOps T P) (pProperties : List P) (pBlobs : List T)
    (hT : 0 < pBlobs.length) :
    (greedyPairs (mkSearchPairs ops pProperties pBlobs)).length
        = min pProperties.length pBlobs.length
    ∧ ((greedyPairs (mkSearchPairs ops pProperties pBlobs)).map BlobPair.dist).Pairwise (· ≤ ·)
    ∧ ((greedyPairs (mkSearchPairs ops pProperties pBlobs)).map BlobPair.current).Nodup
    ∧ ((greedyPairs (mkSearchPairs ops pProperties pBlobs)).map BlobPair.measure).Nodup
    ∧ (∀ q ∈ mkSearchPairs ops pProperties pBlobs,
        ∃ c ∈ greedyPairs (mkSearchPairs ops pProperties pBlobs),
          c.current = q.current ∨ c.measure = q.measure)
    ∧ (∀ (p : BlobPair) (rest : List BlobPair),
        greedyPairs (p :: rest) = selectNearest p rest ::
          greedyPairs (discardShared (selectNearest p rest) (p :: rest))
        ∧ (∀ q ∈ p :: rest, (selectNearest p rest).dist ≤ q.dist)) := by
  refine ⟨greedyPairs_grid_length ops pProperties pBlobs, greedyLoop_sorted _ _,
    greedyLoop_nodup_current _ _, greedyLoop_nodup_measure _ _,
    greedyLoop_cover _ _ (le_refl _), ?hstep⟩
  intro p rest
  exact ⟨greedyPairs_cons p rest, selectNearest_le p rest⟩

/-- Witness for C2 at a concrete input: two tracks at positions 0 and 10 and
two measurements at 1 and 11. -/
theorem trackBlobs_greedy_matching_witness :
    0 < ([(⟨0, 5⟩ : TB), ⟨10, 5⟩] : List TB).length
    ∧ ((greedyPairs (mkSearchPairs toyOps [(1 : Int), 11] [(⟨0, 5⟩ : TB), ⟨10, 5⟩])).length
        = min ([(1 : Int), 11] : List Int).length ([(⟨0, 5⟩ : TB), ⟨10, 5⟩] : List TB).length
    ∧ ((greedyPairs (mkSearchPairs toyOps [(1 : Int), 11]
        [(⟨0, 5⟩ : TB), ⟨10, 5⟩])).map BlobPair.dist).Pairwise (· ≤ ·)
    ∧ ((greedyPairs (mkSearchPairs toyOps [(1 : Int), 11]
        [(⟨0, 5⟩ : TB), ⟨10, 5⟩])).map BlobPair.current).Nodup
    ∧ ((greedyPairs (mkSearchPairs toyOps [(1 : Int), 11]
        [(⟨0, 5⟩ : TB), ⟨10, 5⟩])).map BlobPair.measure).Nodup
    ∧ (∀ q ∈ mkSearchPairs toyOps [(1 : Int), 11] [(⟨0, 5⟩ : TB), ⟨10, 5⟩],
        ∃ c ∈ greedyPairs (mkSearchPairs toyOps [(1 : Int), 11] [(⟨0, 5⟩ : TB), ⟨10, 5⟩]),
          c.current = q.current ∨ c.measure = q.measure)
    ∧ (∀ (p : BlobPair) (rest : List BlobPair),
        greedyPairs (p :: rest) = selectNearest p rest ::
          greedyPairs (discardShared (selectNearest p rest) (p :: rest))
        ∧ (∀ q ∈ p :: rest, (selectNearest p rest).dist ≤ q.dist))) :=
  ⟨by decide, trackBlobs_greedy_matching toyOps [(1 : Int), 11]
    [(⟨0, 5⟩ : TB), ⟨10, 5⟩] (by decide)⟩

/-- Claim C1: evaluation of `trackBlobs` at a failing input.  Measurements `[1]`,
tracks at positions 0 (lifetime 0), 1 (lifetime 5), 2 (lifetime 0); the
measurement is matched to the middle track.  By the claim the result should
be exactly `[⟨1, 30⟩]` — the matched track updated and renewed, the two
unmatched lifetime-0 tracks aged to -1 and removed, no unmatched measurement.
Instead, erasing the first dead track shifts the vector under the stored pair
pointer: the matched track is spuriously aged to 29, and the second dead
track is then address-matched by the stale pointer, escapes aging, and stays
in the vector. -/
theorem trackBlobs_erase_aliasing_eval :
    trackBlobs toyOps [(1 : Int)] [(⟨0, 0⟩ : TB), ⟨1, 5⟩, ⟨2, 0⟩] 30
        = [⟨1, 29⟩, ⟨2, 0⟩]
    ∧ trackBlobs toyOps [(1 : Int)] [(⟨0, 0⟩ : TB), ⟨1, 5⟩, ⟨2, 0⟩] 30
        ≠ [⟨1, 30⟩] := by
  decide

/-- Claim C3: evaluation of `trackBlobs` at a failing input.  Measurements `[1]`,
tracks at positions 0 (lifetime 0), 1 (lifetime 5), 3 (lifetime 4); the
measurement is matched to the middle track.  By the claim the unmatched track
`⟨3, 4⟩` (entry lifetime 4 > 0) must survive with lifetime decremented by
exactly one, i.e. 3, and the matched track must not be aged.  Instead, after
the erase of the dead first track the stale pair pointer address-matches the
shifted third track, which therefore escapes `getOlder()` entirely and keeps
lifetime 4, while the matched track is aged to 29. -/
theorem trackBlobs_skipped_aging_eval :
    trackBlobs toyOps [(1 : Int)] [(⟨0, 0⟩ : TB), ⟨1, 5⟩, ⟨3, 4⟩] 30
        = [⟨1, 29⟩, ⟨3, 4⟩]
    ∧ trackBlobs toyOps [(1 : Int)] [(⟨0, 0⟩ : TB), ⟨1, 5⟩, ⟨3, 4⟩] 30
        ≠ [⟨1, 30⟩, ⟨3, 3⟩] := by
  decide

/-! ## Flow-id theorems (C4) -/

theorem mCurrentIdAfter_eq (n : Nat) : mCurrentIdAfter n = n % UINT_MOD := by
  induction n with
  | zero => rfl
  | succ k ih =>
    show (getValidId (mCurrentIdAfter k)).1 = (k + 1) % UINT_MOD
    rw [ih]
    exact Nat.mod_add_mod k UINT_MOD 1

theorem flowIdOfConnect_eq (n : Nat) : flowIdOfConnect n = (n + 1) % UINT_MOD := by
  show (mCurrentIdAfter n + 1) % UINT_MOD = (n + 1) % UINT_MOD
  rw [mCurrentIdAfter_eq]
  exact Nat.mod_add_mod n UINT_MOD 1

/-- Claim C4 counterexample: `mCurrentId` is an `unsigned int`, so `++mCurrentId`
wraps after `2^32` allocations: the very first connect of the process returns
flow id 1, but the `2^32`-th returns 0, which is not strictly greater. -/
theorem flowIdOfConnect_wraparound :
    flowIdOfConnect 0 = 1 ∧ flowIdOfConnect (UINT_MOD - 1) = 0
    ∧ ¬ flowIdOfConnect 0 < flowIdOfConnect (UINT_MOD - 1) := by
  have h1 : flowIdOfConnect 0 = 1 := by decide
  have h2 : flowIdOfConnect (UINT_MOD - 1) = 0 := by
    rw [flowIdOfConnect_eq]
    decide
  rw [h1, h2]
  exact ⟨rfl, rfl, by decide⟩

/-- Claim C4 (amended): every successful connect returns the id produced by
`getValidId` (which pre-increments the process-wide counter), and the
returned flow ids are strictly increasing as long as fewer than `2^32 - 1`
successful connects have happened in the process (the `2^32`-th allocation
wraps the unsigned counter to 0). -/
theorem connect_ids_strictly_increasing :
    (∀ (env : ConnectEnv) (st : AppState) (message : List Atom) (st2 : AppState) (id : Nat),
      oscHandlerConnect env st message = (st2, Reply.connected id) →
        id = (getValidId st.mCurrentId).2 ∧ st2.mCurrentId = (getValidId st.mCurrentId).1)
    ∧ (∀ i j : Nat, i < j → j < UINT_MOD - 1 → flowIdOfConnect i < flowIdOfConnect j) := by
  constructor
  · intro env st message st2 id h
    unfold oscHandlerConnect at h
    repeat' split at h
    all_goals (injection h with hst hr; cases hr)
    all_goals (subst hst; exact ⟨rfl, rfl⟩)
  · intro i j hij hj
    rw [flowIdOfConnect_eq, flowIdOfConnect_eq]
    have hiM : i + 1 < UINT_MOD := by omega
    have hjM : j + 1 < UINT_MOD := by omega
    rw [Nat.mod_eq_of_lt hiM, Nat.mod_eq_of_lt hjM]
    omega

/-- Witness for C4 (amended): the success branch of the connect handler on a
concrete request, and strict growth between the first two connects. -/
theorem connect_ids_strictly_increasing_witness :
    ((oscHandlerConnect env0 st0
        [Atom.astr ("10.0.0.1"), Atom.aint 9000, Atom.astr ("LightSpots"), Atom.astr ("Camera"), Atom.aint 0]).2
      = Reply.connected 1
    ∧ 1 = (getValidId st0.mCurrentId).2)
    ∧ (0 < 1 ∧ 1 < UINT_MOD - 1 ∧ flowIdOfConnect 0 < flowIdOfConnect 1) := by
  constructor
  · constructor
    · decide
    · exact (connect_ids_strictly_increasing.1 env0 st0
        [Atom.astr ("10.0.0.1"), Atom.aint 9000, Atom.astr ("LightSpots"), Atom.astr ("Camera"), Atom.aint 0]
        ⟨[("Camera", 0)], [⟨1, "LightSpots", [("Camera", 0)], "10.0.0.1:9000", false⟩], 1⟩
        1 (by decide)).1
  · exact ⟨by decide, by decide, connect_ids_strictly_increasing.2 0 1 (by decide) (by decide)⟩

/-! ## Connect error-path theorems (C5) -/

/-- Claim C5 counterexample: a connect whose port argument is a string instead of
an integer hits the `catch (atom::BadTypeTagError)` path, which does
`return 1` without sending anything: the flow/source/counter state is
untouched but, contrary to the claim, no reply at all is sent on this error
path. -/
theorem oscHandlerConnect_silent_failure :
    oscHandlerConnect env0 st0
        [Atom.astr ("10.0.0.1"), Atom.astr ("9000"), Atom.astr ("LightSpots"),
          Atom.astr ("Camera"), Atom.aint 0]
      = (st0, Reply.noReply)
    ∧ ∀ s, Reply.noReply ≠ Reply.error s := by
  refine ⟨by decide, ?h2⟩
  intro s h
  cases h

theorem oscHandlerConnect_state (env : ConnectEnv) (st : AppState) (message : List Atom) :
    (oscHandlerConnect env st message).1 = st
    ∨ ∃ id, (oscHandlerConnect env st message).2 = Reply.connected id := by
  unfold oscHandlerConnect
  repeat' split
  all_goals simp

/-- Claim C5 (amended): every connect that does not succeed leaves the flow set,
the source set and the flow-id counter unchanged, and sends a human-readable
error reply, except on the paths where the reply channel itself cannot be
established — a non-integer port argument or a `lo_address` error (silent
return) — or where the message is malformed enough to hit undefined
behaviour — fewer than two arguments or a non-string address (crash). -/
theorem oscHandlerConnect_error_paths (env : ConnectEnv) (st : AppState)
    (message : List Atom) :
    ((∀ id, (oscHandlerConnect env st message).2 ≠ Reply.connected id) →
        (oscHandlerConnect env st message).1 = st)
    ∧ ((oscHandlerConnect env st message).2 = Reply.noReply →
        atomToInt (message.getD 1 Atom.aother) = none
        ∨ ∃ ip p, atomToString (message.getD 0 Atom.aother) = some ip
            ∧ atomToInt (message.getD 1 Atom.aother) = some p
            ∧ env.addrError ip p = true)
    ∧ ((oscHandlerConnect env st message).2 = Reply.crash →
        message.length < 2 ∨ atomToString (message.getD 0 Atom.aother) = none) := by
  refine ⟨?h1, ?h2, ?h3⟩
  · intro hnc
    rcases oscHandlerConnect_state env st message with h | ⟨id, hid⟩
    · exact h
    · exact absurd hid (hnc id)
  · intro hnr
    unfold oscHandlerConnect at hnr
    repeat' split at hnr
    all_goals simp_all
  · intro hcr
    unfold oscHandlerConnect at hcr
    repeat' split at hcr
    all_goals simp_all

/-- Witness for C5 (amended) at a concrete failing request (unknown
detector class). -/
theorem oscHandlerConnect_error_paths_witness :
    ((∀ id, (oscHandlerConnect env0 st0
        [Atom.astr ("10.0.0.1"), Atom.aint 9000, Atom.astr ("NoSuchDetector"),
          Atom.astr ("Camera"), Atom.aint 0]).2 ≠ Reply.connected id) →
      (oscHandlerConnect env0 st0
        [Atom.astr ("10.0.0.1"), Atom.aint 9000, Atom.astr ("NoSuchDetector"),
          Atom.astr ("Camera"), Atom.aint 0]).1 = st0)
    ∧ ((oscHandlerConnect env0 st0
        [Atom.astr ("10.0.0.1"), Atom.aint 9000, Atom.astr ("NoSuchDetector"),
          Atom.astr ("Camera"), Atom.aint 0]).2 = Reply.noReply →
        atomToInt ([Atom.astr ("10.0.0.1"), Atom.aint 9000, Atom.astr ("NoSuchDetector"),
          Atom.astr ("Camera"), Atom.aint 0].getD 1 Atom.aother) = none
        ∨ ∃ ip p, atomToString ([Atom.astr ("10.0.0.1"), Atom.aint 9000, Atom.astr ("NoSuchDetector"),
            Atom.astr ("Camera"), Atom.aint 0].getD 0 Atom.aother) = some ip
            ∧ atomToInt ([Atom.astr ("10.0.0.1"), Atom.aint 9000, Atom.astr ("NoSuchDetector"),
              Atom.astr ("Camera"), Atom.aint 0].getD 1 Atom.aother) = some p
            ∧ env0.addrError ip p = true)
    ∧ ((oscHandlerConnect env0 st0
        [Atom.astr ("10.0.0.1"), Atom.aint 9000, Atom.astr ("NoSuchDetector"),
          Atom.astr ("Camera"), Atom.aint 0]).2 = Reply.crash →
        ([Atom.astr ("10.0.0.1"), Atom.aint 9000, Atom.astr ("NoSuchDetector"),
          Atom.astr ("Camera"), Atom.aint 0] : List Atom).length < 2
        ∨ atomToString ([Atom.astr ("10.0.0.1"), Atom.aint 9000, Atom.astr ("NoSuchDetector"),
          Atom.astr ("Camera"), Atom.aint 0].getD 0 Atom.aother) = none) :=
  oscHandlerConnect_error_paths env0 st0
    [Atom.astr ("10.0.0.1"), Atom.aint 9000, Atom.astr ("NoSuchDetector"),
      Atom.astr ("Camera"), Atom.aint 0]

/-! ## Disconnect theorems (C6) -/

theorem discLoop_spec (callerUrl : String) (all : Bool) (did : Int) (flows : List Flow) :
    discLoop callerUrl all did flows
      = (flows.filter (fun f => ! disconnectCond callerUrl all did f),
         (flows.filter (disconnectCond callerUrl all did)).map Flow.clientUrl) := by
  induction flows with
  | nil => rfl
  | cons f rest ih =>
    by_cases h : disconnectCond callerUrl all did f
    · simp [discLoop, ih, List.filter_cons, h]
    · simp [discLoop, ih, List.filter_cons, h]

/-- Claim C6: for every well-addressed disconnect request, when it carries a flow
id exactly the flows of the calling subscriber (URL rebuilt from the given ip
and port 9000) whose id matches the given id — an `int` compared to the
`unsigned int` flow id modulo `2^32` — are removed and every other flow is
kept in order; when it carries no flow id exactly the calling subscriber's
flows are removed; each removed flow's client is sent a "Disconnected"
reply. -/
theorem oscHandlerDisconnect_spec (addrErr : String → Bool) (st : AppState)
    (message : List Atom) (ip : String)
    (h0 : atomToString (message.getD 0 Atom.aother) = some ip)
    (haddr : addrErr ip = false) :
    (message.length = 1 →
      oscHandlerDisconnect addrErr st message
        = (⟨st.mSources,
            st.mFlows.filter (fun f => ! disconnectCond (mkUrl ip 9000) true 0 f),
            st.mCurrentId⟩,
           (st.mFlows.filter (disconnectCond (mkUrl ip 9000) true 0)).map
             (fun f => (f.clientUrl, "Disconnected")),
           DiscOutcome.done))
    ∧ (∀ did : Int, message.length = 2 →
        atomToInt (message.getD 1 Atom.aother) = some did →
      oscHandlerDisconnect addrErr st message
        = (⟨st.mSources,
            st.mFlows.filter (fun f => ! disconnectCond (mkUrl ip 9000) false did f),
            st.mCurrentId⟩,
           (st.mFlows.filter (disconnectCond (mkUrl ip 9000) false did)).map
             (fun f => (f.clientUrl, "Disconnected")),
           DiscOutcome.done)) := by
  constructor
  · intro hlen
    simp only [oscHandlerDisconnect, h0, haddr, hlen, discLoop_spec]
    simp [List.map_map]
  · intro did hlen hdid
    simp only [oscHandlerDisconnect, h0, haddr, hlen, hdid, discLoop_spec]
    simp [List.map_map]

/-- Witness for C6: a two-flow state where the caller disconnects flow 1. -/
theorem oscHandlerDisconnect_spec_witness :
    (([Atom.astr ("a"), Atom.aint 1] : List Atom).length = 1 →
      oscHandlerDisconnect (fun _ => false)
          ⟨[], [⟨1, "d", [], "a:9000", false⟩, ⟨2, "d", [], "b:9000", true⟩], 5⟩
          [Atom.astr ("a"), Atom.aint 1]
        = (⟨[],
            ([⟨1, "d", [], "a:9000", false⟩, ⟨2, "d", [], "b:9000", true⟩] : List Flow).filter
              (fun f => ! disconnectCond (mkUrl ("a") 9000) true 0 f),
            5⟩,
           (([⟨1, "d", [], "a:9000", false⟩, ⟨2, "d", [], "b:9000", true⟩] : List Flow).filter
              (disconnectCond (mkUrl ("a") 9000) true 0)).map
             (fun f => (f.clientUrl, "Disconnected")),
           DiscOutcome.done))
    ∧ (∀ did : Int, ([Atom.astr ("a"), Atom.aint 1] : List Atom).length = 2 →
        atomToInt ([Atom.astr ("a"), Atom.aint 1].getD 1 Atom.aother) = some did →
      oscHandlerDisconnect (fun _ => false)
          ⟨[], [⟨1, "d", [], "a:9000", false⟩, ⟨2, "d", [], "b:9000", true⟩], 5⟩
          [Atom.astr ("a"), Atom.aint 1]
        = (⟨[],
            ([⟨1, "d", [], "a:9000", false⟩, ⟨2, "d", [], "b:9000", true⟩] : List Flow).filter
              (fun f => ! disconnectCond (mkUrl ("a") 9000) false did f),
            5⟩,
           (([⟨1, "d", [], "a:9000", false⟩, ⟨2, "d", [], "b:9000", true⟩] : List Flow).filter
              (disconnectCond (mkUrl ("a") 9000) false did)).map
             (fun f => (f.clientUrl, "Disconnected")),
           DiscOutcome.done)) :=
  oscHandlerDisconnect_spec (fun _ => false)
    ⟨[], [⟨1, "d", [], "a:9000", false⟩, ⟨2, "d", [], "b:9000", true⟩], 5⟩
    [Atom.astr ("a"), Atom.aint 1] "a" rfl rfl

/-! ## Frame envelope theorems (C8) -/

theorem repack_record_eq (report : List Atom) (N S i : Nat) (hi : i < N)
    (hlen : 2 + N * S ≤ report.length) :
    (List.range S).map (fun j => report.getD (i * S + 2 + j) Atom.aother)
      = (report.drop (2 + i * S)).take S := by
  have hmul : (i + 1) * S ≤ N * S := Nat.mul_le_mul_right S (Nat.succ_le_of_lt hi)
  rw [Nat.succ_mul] at hmul
  apply List.ext_getElem
  · simp only [List.length_map, List.length_range, List.length_take, List.length_drop]
    omega
  · intro j h1 h2
    simp only [List.length_map, List.length_range] at h1
    have hidx : i * S + 2 + j < report.length := by omega
    rw [List.getElem_map, List.getElem_range, List.getElem_take, List.getElem_drop]
    rw [List.getD_eq_getElem report Atom.aother hidx]
    congr 1
    omega

/-- Claim C8: for every flow with `run == true` and every report whose first two
values are the integers `N` and `S` and which carries at least `2 + N*S`
values, the per-frame emission is exactly: the start-frame marker, then
exactly `N` blob messages where the i-th carries exactly the `S` report
values at positions `2 + i*S` … `2 + i*S + S - 1`, then the end-frame marker
(with the detector invocation and the shared-memory write preceding the
markers); for `N = 0` only the markers are sent. -/
theorem flow_frame_envelope (frameNbr : Nat) (f : Flow) (report : List Atom) (N S : Nat)
    (hrun : f.run = true)
    (h0 : report.getD 0 Atom.aother = Atom.aint (N : Int))
    (h1 : report.getD 1 Atom.aother = Atom.aint (S : Int))
    (hlen : 2 + N * S ≤ report.length) :
    flowFrameEvents frameNbr f report
      = ([Event.detect f.id, Event.shmWrite f.id, Event.startFrame frameNbr f.id]
          ++ (List.range N).map
              (fun i => Event.blobMsg f.id ((report.drop (2 + i * S)).take S))
          ++ [Event.endFrame frameNbr f.id], true) := by
  simp only [flowFrameEvents, hrun, h0, h1, atomToInt]
  simp only [Bool.true_eq_false, if_false]
  have hrepack : repackBlobs report (N : Int) (S : Int)
      = (List.range N).map (fun i => (report.drop (2 + i * S)).take S) := by
    unfold repackBlobs
    rw [Int.toNat_natCast, Int.toNat_natCast]
    apply List.map_congr_left
    intro i hi
    exact repack_record_eq report N S i (List.mem_range.mp hi) hlen
  rw [hrepack, List.map_map]
  rfl

/-- Witness for C8: a report with two blobs of one field each. -/
theorem flow_frame_envelope_witness :
    ((⟨7, "d", [], "a:9000", true⟩ : Flow).run = true)
    ∧ flowFrameEvents 4 ⟨7, "d", [], "a:9000", true⟩
        [Atom.aint 2, Atom.aint 1, Atom.aint 10, Atom.aint 20]
      = ([Event.detect 7, Event.shmWrite 7, Event.startFrame 4 7]
          ++ (List.range 2).map
              (fun i => Event.blobMsg 7
                (([Atom.aint 2, Atom.aint 1, Atom.aint 10, Atom.aint 20].drop (2 + i * 1)).take 1))
          ++ [Event.endFrame 4 7], true) :=
  ⟨rfl, flow_frame_envelope 4 ⟨7, "d", [], "a:9000", true⟩
    [Atom.aint 2, Atom.aint 1, Atom.aint 10, Atom.aint 20] 2 1 rfl rfl rfl (by decide)⟩

/-! ## Parallel_Mask theorems (C9) -/

/-- Claim C9: evaluation of `Parallel_Mask` at a failing input: a two-byte pixel
type (`w = sizeof(PixType) = 2`), a dense 2×2 buffer `[[5, 7], [11, 13]]`, a
2×2 all-zero mask, run over both rows.  The claim requires every pixel to be
zeroed (all mask bytes are zero).  Because the code multiplies every pointer
offset by `sizeof(PixType)` although C++ pointer arithmetic already scales by
the element size, it zeroes elements 0 and 2 — pixels (0,0) and (1,0) — and
leaves pixel (0,1) = 7 untouched even though its mask is zero (row 1 of the
walk reads and writes out of bounds). -/
theorem Parallel_Mask_wide_pixel_eval :
    Parallel_Mask 2 2 2 0 2 [0, 0, 0, 0] [5, 7, 11, 13] = [0, 7, 0, 13]
    ∧ (Parallel_Mask 2 2 2 0 2 [0, 0, 0, 0] [5, 7, 11, 13]).getD 1 0 ≠ 0 := by
  decide

/-- Sanity anchor: for a one-byte pixel type (`w = 1`, the only `PixType` for
which `Parallel_Mask` even compiles) all the `sizeof` factors collapse to 1
and the masking behaves as specified on this input. -/
theorem Parallel_Mask_uchar_eval :
    Parallel_Mask 1 2 2 0 2 [0, 255, 255, 0] [5, 7, 11, 13] = [0, 7, 11, 0] := by
  decide

/-! ## getOutput theorems (C10) -/

theorem writeAll_other (h : MatHeap) (b out : Nat) (hne : b ≠ out)
    (ws : List (Nat × Int)) : (writeAll h b ws).stores out = h.stores out := by
  induction ws generalizing h with
  | nil => rfl
  | cons w ws ih =>
    show (writeAll (matSetPixel h b w.1 w.2) b ws).stores out = _
    rw [ih]
    show (if out = b then _ else h.stores out) = h.stores out
    rw [if_neg (fun hh => hne hh.symm)]

/-- Claim C10: `Detector::getOutput` returns `mOutputBuffer.clone()`, a handle onto
a freshly allocated pixel store, so for every live heap and every sequence of
writes through the returned image, the detector's internal output buffer —
the store later published to shared memory and the display list — is left
unchanged. -/
theorem getOutput_clone_isolated (h : MatHeap) (mOutputBuffer : Nat)
    (hlive : mOutputBuffer < h.next) (ws : List (Nat × Int)) :
    (getOutput h mOutputBuffer).2 ≠ mOutputBuffer
    ∧ (writeAll (getOutput h mOutputBuffer).1 (getOutput h mOutputBuffer).2 ws).stores
        mOutputBuffer = h.stores mOutputBuffer := by
  have hne : (getOutput h mOutputBuffer).2 ≠ mOutputBuffer := by
    show h.next ≠ mOutputBuffer
    exact fun hh => absurd hlive (by rw [hh]; exact lt_irrefl _)
  refine ⟨hne, ?h2⟩
  rw [writeAll_other _ _ _ hne]
  show (if mOutputBuffer = h.next then _ else h.stores mOutputBuffer) = h.stores mOutputBuffer
  rw [if_neg (Nat.ne_of_lt hlive)]

/-- Witness for C10: a heap with one live store, one write through the
clone. -/
theorem getOutput_clone_isolated_witness :
    (getOutput heap0 0).2 ≠ 0
    ∧ (writeAll (getOutput heap0 0).1 (getOutput heap0 0).2 [(0, 99)]).stores 0
        = heap0.stores 0 :=
  getOutput_clone_isolated heap0 0 (by decide) [(0, 99)]

/-! ## Run-flag gating theorems (C7) -/

theorem atomToString_eq_some (a : Atom) (s : String) (h : atomToString a = some s) :
    a = Atom.astr s := by
  cases a <;> simp [atomToString] at h
  rw [h]

theorem getD_astr_lt_length (m : List Atom) (k : Nat) (s : String)
    (h : m.getD k Atom.aother = Atom.astr s) : k < m.length := by
  by_contra hk
  rw [List.getD_eq_default _ _ (by omega)] at h
  cases h

theorem setParamFlows_id_map (flowId : Nat) (entity : String) (flows : List Flow) :
    (setParamFlows flowId entity flows).map Flow.id = flows.map Flow.id := by
  unfold setParamFlows
  rw [List.map_map]
  apply List.map_congr_left
  intro f hf
  by_cases h1 : f.id == flowId <;> by_cases h2 : entity == "Start" <;>
    by_cases h3 : entity == "Stop" <;> simp [h1, h2, h3, Function.comp]

theorem setParamFlows_run_stop (flowId : Nat) (flows : List Flow) :
    ∀ g ∈ setParamFlows flowId ("Stop") flows, g.id = flowId → g.run = false := by
  intro g hg hid
  rcases List.mem_map.mp hg with ⟨f, hf, rfl⟩
  by_cases h1 : f.id == flowId
  · simp [h1]
  · simp only [h1, if_false] at hid ⊢
    exact absurd (beq_iff_eq.mpr hid) h1

theorem setParamFlows_run_start (flowId : Nat) (flows : List Flow) :
    ∀ g ∈ setParamFlows flowId ("Start") flows, g.id = flowId → g.run = true := by
  intro g hg hid
  rcases List.mem_map.mp hg with ⟨f, hf, rfl⟩
  by_cases h1 : f.id == flowId
  · simp [h1]
  · simp only [h1, if_false] at hid ⊢
    exact absurd (beq_iff_eq.mpr hid) h1

theorem setParamFlows_preserves_stopped (flowId fid : Nat) (entity : String)
    (flows : List Flow) (hno : ¬(entity = "Start" ∧ flowId = fid))
    (hstop : ∀ g ∈ flows, g.id = fid → g.run = false) :
    ∀ g ∈ setParamFlows flowId entity flows, g.id = fid → g.run = false := by
  intro g hg hid
  rcases List.mem_map.mp hg with ⟨f, hf, rfl⟩
  by_cases h1 : f.id == flowId
  · by_cases h2 : entity == "Start"
    · exfalso
      apply hno
      refine ⟨beq_iff_eq.mp h2, ?hfid⟩
      have hfid1 : f.id = flowId := beq_iff_eq.mp h1
      simp only [h1, h2, if_true] at hid
      omega
    · by_cases h3 : entity == "Stop"
      · simp [h1, h2, h3]
      · simp only [h1, h2, h3, if_true, if_false] at hid ⊢
        exact hstop f hf hid
  · simp only [h1, if_false] at hid ⊢
    exact hstop f hf hid

/-- The setParameter handler, under a well-formed message, either applies the
per-flow entity update (when some flow id matches) or leaves the state
unchanged (when none does). -/
theorem oscHandlerSetParameter_apply (addrErr : String → Bool) (st : AppState)
    (m : List Atom) (ip : String) (i : Int) (entity : String)
    (h0 : atomToString (m.getD 0 Atom.aother) = some ip)
    (haddr : addrErr ip = false)
    (h1 : atomToInt (m.getD 1 Atom.aother) = some i)
    (h2 : m.getD 2 Atom.aother = Atom.astr entity) :
    oscHandlerSetParameter addrErr st m
      = some (if st.mFlows.any (fun f => f.id == (i % (UINT_MOD : Int)).toNat) then
          (⟨st.mSources, setParamFlows (i % (UINT_MOD : Int)).toNat entity st.mFlows,
            st.mCurrentId⟩ : AppState)
        else st) := by
  have hlen : 2 < m.length := getD_astr_lt_length m 2 entity h2
  have hlt : ¬ m.length < 3 := by omega
  simp only [oscHandlerSetParameter, h0]
  rw [if_neg hlt, haddr]
  simp only [Bool.false_eq_true, if_false]
  simp only [h1, h2, atomToString]
  split <;> rfl

theorem oscHandlerSetParameter_ids (addrErr : String → Bool) (st : AppState)
    (m : List Atom) (st2 : AppState) (h : oscHandlerSetParameter addrErr st m = some st2) :
    st2.mFlows.map Flow.id = st.mFlows.map Flow.id := by
  unfold oscHandlerSetParameter at h
  repeat' split at h
  all_goals (try exact Option.noConfusion h)
  all_goals simp only [Option.some.injEq] at h
  all_goals subst h
  all_goals (try rfl)
  exact setParamFlows_id_map _ _ _

theorem oscHandlerSetParameter_preserves_stopped (addrErr : String → Bool)
    (st : AppState) (m : List Atom) (fid : Nat)
    (hnostart : ¬ isStartFor fid m)
    (hstop : ∀ g ∈ st.mFlows, g.id = fid → g.run = false) :
    ∀ st2, oscHandlerSetParameter addrErr st m = some st2 →
    ∀ g ∈ st2.mFlows, g.id = fid → g.run = false := by
  intro st2 h
  unfold oscHandlerSetParameter at h
  repeat' split at h
  all_goals (try exact Option.noConfusion h)
  all_goals simp only [Option.some.injEq] at h
  all_goals subst h
  all_goals (try exact hstop)
  apply setParamFlows_preserves_stopped _ _ _ _ ?hno hstop
  rintro ⟨hstart, hfid⟩
  subst hstart
  refine hnostart ⟨⟨_, ?hint, hfid⟩, ?hs⟩
  · assumption
  · exact atomToString_eq_some _ _ (by assumption)

theorem flowFrameEvents_flowId (frameNbr : Nat) (f : Flow) (report : List Atom) :
    ∀ e ∈ (flowFrameEvents frameNbr f report).1, e.flowId = f.id := by
  intro e he
  unfold flowFrameEvents at he
  split at he
  · cases he
  · split at he
    · simp only [List.mem_append, List.mem_cons, List.not_mem_nil, or_false,
        List.mem_map] at he
      rcases he with ((rfl | rfl | rfl) | ⟨x, hx, rfl⟩) | rfl <;> rfl
    · simp only [List.mem_cons, List.not_mem_nil, or_false] at he
      rcases he with rfl | rfl | rfl <;> rfl

theorem flowFrameEvents_stopped (frameNbr : Nat) (f : Flow) (report : List Atom)
    (h : f.run = false) : flowFrameEvents frameNbr f report = ([], true) := by
  simp [flowFrameEvents, h]

theorem flowFrameEvents_no_fid (frameNbr : Nat) (f : Flow) (report : List Atom)
    (fid : Nat) (hstop : f.id = fid → f.run = false) :
    ∀ e ∈ (flowFrameEvents frameNbr f report).1, e.flowId ≠ fid := by
  intro e he hef
  have hid := flowFrameEvents_flowId frameNbr f report e he
  have hrun := hstop (by rw [← hid]; exact hef)
  rw [flowFrameEvents_stopped frameNbr f report hrun] at he
  cases he

theorem flowsEvents_no_fid (frameNbr : Nat) (reports : Nat → List Atom)
    (fid : Nat) : ∀ flows : List Flow,
    (∀ g ∈ flows, g.id = fid → g.run = false) →
    ∀ e ∈ (flowsEvents frameNbr reports flows).1, e.flowId ≠ fid := by
  intro flows
  induction flows with
  | nil => intro _ e he; cases he
  | cons f rest ih =>
    intro hstop e he
    unfold flowsEvents at he
    split at he
    · rcases List.mem_append.mp he with h | h
      · exact flowFrameEvents_no_fid frameNbr f (reports f.id) fid
          (hstop f (List.mem_cons_self _ _)) e h
      · exact ih (fun g hg => hstop g (List.mem_cons_of_mem _ hg)) e h
    · exact flowFrameEvents_no_fid frameNbr f (reports f.id) fid
        (hstop f (List.mem_cons_self _ _)) e he

theorem flowsEvents_start_mem (frameNbr : Nat) (reports : Nat → List Atom)
    (f : Flow) (hrun : f.run = true) : ∀ flows : List Flow, f ∈ flows →
    (∀ g ∈ flows, (atomToInt ((reports g.id).getD 0 Atom.aother)).isSome = true
        ∧ (atomToInt ((reports g.id).getD 1 Atom.aother)).isSome = true) →
    Event.startFrame frameNbr f.id ∈ (flowsEvents frameNbr reports flows).1 := by
  intro flows
  induction flows with
  | nil => intro hf _; cases hf
  | cons g rest ih =>
    intro hf hwf
    have hgwf := hwf g (List.mem_cons_self _ _)
    rcases Option.isSome_iff_exists.mp hgwf.1 with ⟨n0, hn0⟩
    rcases Option.isSome_iff_exists.mp hgwf.2 with ⟨n1, hn1⟩
    have hok : (flowFrameEvents frameNbr g (reports g.id)).2 = true := by
      unfold flowFrameEvents
      split
      · rfl
      · rw [hn0, hn1]
    unfold flowsEvents
    rw [hok, if_pos rfl]
    rcases List.mem_cons.mp hf with hfg | hfg
    · subst hfg
      refine List.mem_append.mpr (Or.inl ?hmem)
      unfold flowFrameEvents
      rw [if_neg (by rw [hrun]; exact fun hh => Bool.true_eq_false.mp hh)]
      rw [hn0, hn1]
      simp
    · exact List.mem_append.mpr
        (Or.inr (ih hfg (fun g2 hg2 => hwf g2 (List.mem_cons_of_mem _ hg2))))

theorem runTrace_gating (addrErr : String → Bool) (reports : Nat → List Atom)
    (acts : List Action) : ∀ (st : AppState) (frameNbr fid : Nat),
    (∀ g ∈ st.mFlows, g.id = fid → g.run = false) →
    (∀ m, Action.setParam m ∈ acts → ¬ isStartFor fid m) →
    (∀ e ∈ (runTrace addrErr reports st frameNbr acts).2, e.flowId ≠ fid)
    ∧ (∀ g ∈ (runTrace addrErr reports st frameNbr acts).1.mFlows,
        g.id = fid → g.run = false)
    ∧ (runTrace addrErr reports st frameNbr acts).1.mFlows.map Flow.id
        = st.mFlows.map Flow.id := by
  induction acts with
  | nil =>
    intro st frameNbr fid hstop hnostart
    exact ⟨fun e he => absurd he (List.not_mem_nil e), hstop, rfl⟩
  | cons a rest ih =>
    intro st frameNbr fid hstop hnostart
    cases a with
    | loopIter =>
      have hloop := flowsEvents_no_fid frameNbr reports fid st.mFlows hstop
      unfold runTrace
      split
      · rcases ih st (frameNbr + 1) fid hstop
            (fun m hm => hnostart m (List.mem_cons_of_mem _ hm)) with ⟨h1, h2, h3⟩
        refine ⟨?he, h2, h3⟩
        intro e he
        rcases List.mem_append.mp he with h | h
        · exact hloop e h
        · exact h1 e h
      · exact ⟨hloop, hstop, rfl⟩
    | setParam m =>
      have hnom : ¬ isStartFor fid m := hnostart m (List.mem_cons_self _ _)
      unfold runTrace
      split
      next st2 hst2 =>
        have hstop2 : ∀ g ∈ st2.mFlows, g.id = fid → g.run = false :=
          oscHandlerSetParameter_preserves_stopped addrErr st m fid hnom hstop st2 hst2
        rcases ih st2 frameNbr fid hstop2
            (fun m2 hm2 => hnostart m2 (List.mem_cons_of_mem _ hm2)) with ⟨h1, h2, h3⟩
        refine ⟨h1, h2, ?hids⟩
        rw [h3, oscHandlerSetParameter_ids addrErr st m st2 hst2]
      next hst2 =>
        exact ⟨fun e he => absurd he (List.not_mem_nil e), hstop, rfl⟩

/-- Claim C7: between a flow's creation by a successful connect (which records it
with `run = false`) and the first setParameter "Start" naming its id, the
main loop emits no `/blobserver/startFrame`, never invokes the flow's
detector and never writes its shared-memory channel, and the flow stays in
the flow set with `run = false`; a "Start" sets `run` true for every flow
with that id, after which each loop pass emits the flow's start-frame
marker; a "Stop" sets `run` back to false while the flow remains in the flow
set. -/
theorem flow_run_gating :
    (∀ (env : ConnectEnv) (st : AppState) (message : List Atom),
      ∀ f ∈ (oscHandlerConnect env st message).1.mFlows, f ∉ st.mFlows → f.run = false)
    ∧ (∀ (addrErr : String → Bool) (reports : Nat → List Atom) (acts : List Action)
        (st : AppState) (frameNbr fid : Nat),
        (∀ g ∈ st.mFlows, g.id = fid → g.run = false) →
        (∀ m, Action.setParam m ∈ acts → ¬ isStartFor fid m) →
        (∀ e ∈ (runTrace addrErr reports st frameNbr acts).2, e.flowId ≠ fid)
        ∧ (∀ g ∈ (runTrace addrErr reports st frameNbr acts).1.mFlows,
            g.id = fid → g.run = false)
        ∧ (runTrace addrErr reports st frameNbr acts).1.mFlows.map Flow.id
            = st.mFlows.map Flow.id)
    ∧ (∀ (addrErr : String → Bool) (st st2 : AppState) (m : List Atom) (ip : String) (i : Int),
        atomToString (m.getD 0 Atom.aother) = some ip → addrErr ip = false →
        atomToInt (m.getD 1 Atom.aother) = some i →
        m.getD 2 Atom.aother = Atom.astr ("Start") →
        oscHandlerSetParameter addrErr st m = some st2 →
        (∀ g ∈ st2.mFlows, g.id = (i % (UINT_MOD : Int)).toNat → g.run = true)
        ∧ st2.mFlows.map Flow.id = st.mFlows.map Flow.id)
    ∧ (∀ (addrErr : String → Bool) (st st2 : AppState) (m : List Atom) (ip : String) (i : Int),
        atomToString (m.getD 0 Atom.aother) = some ip → addrErr ip = false →
        atomToInt (m.getD 1 Atom.aother) = some i →
        m.getD 2 Atom.aother = Atom.astr ("Stop") →
        oscHandlerSetParameter addrErr st m = some st2 →
        (∀ g ∈ st2.mFlows, g.id = (i % (UINT_MOD : Int)).toNat → g.run = false)
        ∧ st2.mFlows.map Flow.id = st.mFlows.map Flow.id)
    ∧ (∀ (frameNbr : Nat) (reports : Nat → List Atom) (flows : List Flow) (f : Flow),
        f ∈ flows → f.run = true →
        (∀ g ∈ flows, (atomToInt ((reports g.id).getD 0 Atom.aother)).isSome = true
            ∧ (atomToInt ((reports g.id).getD 1 Atom.aother)).isSome = true) →
        Event.startFrame frameNbr f.id ∈ (flowsEvents frameNbr reports flows).1) := by
  refine ⟨?hconn,
    fun addrErr reports acts st frameNbr fid hstop hnostart =>
      runTrace_gating addrErr reports acts st frameNbr fid hstop hnostart,
    ?hstart, ?hstop,
    fun frameNbr reports flows f hf hrun hwf =>
      flowsEvents_start_mem frameNbr reports f hrun flows hf hwf⟩
  · intro env st message f hf hnf
    unfold oscHandlerConnect at hf
    repeat' split at hf
    all_goals simp_all
  · intro addrErr st st2 m ip i h0 haddr h1 h2 h
    rw [oscHandlerSetParameter_apply addrErr st m ip i ("Start") h0 haddr h1 h2] at h
    injection h with h
    subst h
    split
    next hany =>
      exact ⟨setParamFlows_run_start _ _, setParamFlows_id_map _ _ _⟩
    next hany =>
      refine ⟨?hvac, rfl⟩
      intro g hg hgid
      refine absurd ?hc hany
      rw [List.any_eq_true]
      exact ⟨g, hg, beq_iff_eq.mpr hgid⟩
  · intro addrErr st st2 m ip i h0 haddr h1 h2 h
    rw [oscHandlerSetParameter_apply addrErr st m ip i ("Stop") h0 haddr h1 h2] at h
    injection h with h
    subst h
    split
    next hany =>
      exact ⟨setParamFlows_run_stop _ _, setParamFlows_id_map _ _ _⟩
    next hany =>
      refine ⟨?hvac2, rfl⟩
      intro g hg hgid
      refine absurd ?hc2 hany
      rw [List.any_eq_true]
      exact ⟨g, hg, beq_iff_eq.mpr hgid⟩

/-- Witness for C7: one never-started flow, one loop pass, no Start message:
no event names the flow and it stays stopped in the flow set. -/
theorem flow_run_gating_witness :
    (∀ e ∈ (runTrace (fun _ => false) (fun _ => []) stG 0 [Action.loopIter]).2,
      e.flowId ≠ 1)
    ∧ (∀ g ∈ (runTrace (fun _ => false) (fun _ => []) stG 0 [Action.loopIter]).1.mFlows,
        g.id = 1 → g.run = false)
    ∧ (runTrace (fun _ => false) (fun _ => []) stG 0 [Action.loopIter]).1.mFlows.map Flow.id
        = stG.mFlows.map Flow.id :=
  flow_run_gating.2.1 (fun _ => false) (fun _ => []) [Action.loopIter] stG 0 1
    (by decide) (by intro m hm; simp at hm)

end Blobserver
